import Mathlib

/-!
Shallow embedding of `scripts/pg-replication-exporter.py`, a PostgreSQL
replication metrics exporter.  Database queries are modelled as oracles:
each query a routine issues is an `Except Unit` value (`.error ()` stands
for a raised `psycopg2.Error`), `fetchone` results that the code guards
with `if result:` are `Option` values.  The Prometheus registry is
modelled by the ordered list of `set` calls a collection pass performs
(`MetricWrite`); a value absent from that list leaves the registry's
previous value in place, which is the library behaviour.
-/

namespace PgExporter

set_option autoImplicit false

/-- The two database endpoints the exporter polls. -/
inductive DbInstance where
  | primary
  | standby
  deriving DecidableEq, Repr

/-- The `instance` label string passed to `.labels(instance=instance)`. -/
def DbInstance.label : DbInstance → String
  | .primary => "primary"
  | .standby => "standby"

/-- The gauge families registered at module load. -/
inductive GaugeName where
  | pg_replication_lag_bytes
  | pg_replication_lag_seconds
  | pg_replication_lag_mb
  | pg_replication_connections
  | pg_replication_sync_state
  | pg_wal_senders
  | pg_wal_receivers
  | pg_wal_generation_rate
  | pg_replication_slots_total
  | pg_replication_slots_active
  | pg_replication_slots_inactive
  | pg_replication_health_score
  | pg_data_consistency_check
  deriving DecidableEq, Repr

/-- One `gauge.labels(...).set(value)` call: gauge family, `instance`
label value, optional `client_addr` label value, and the numeric value. -/
structure MetricWrite where
  gauge : GaugeName
  instLabel : String
  clientAddr : Option String := none
  value : ℚ
  deriving DecidableEq, Repr

/-- Results of the queries `calculate_health_score` may issue.  The
primary branch reads `replicationCount` then `primaryLagRow`; the
standby branch reads `inRecovery` then `standbyLagRow`.  `.error ()`
models a `psycopg2.Error` raised by that query. -/
structure HealthQueries where
  replicationCount : Except Unit Nat
  primaryLagRow : Except Unit (Option ℤ)
  inRecovery : Except Unit Bool
  standbyLagRow : Except Unit (Option (ℤ × ℚ))
  deriving Repr

/-- The `health_score` value computed by the primary branch of
`calculate_health_score` just before the final clamp: start at 100,
subtract 50 when `replication_count == 0`, else 20 when
`replication_count < 1`; then, when the lag row is present, subtract
30 when `lag_bytes > 10485760`, else 10 when `lag_bytes > 1048576`. -/
def primary_raw_score (replication_count : Nat) (result : Option ℤ) : ℤ :=
  let health_score : ℤ := 100
  let health_score :=
    if replication_count = 0 then health_score - 50
    else if replication_count < 1 then health_score - 20
    else health_score
  match result with
  | some lag_bytes =>
      if lag_bytes > 10485760 then health_score - 30
      else if lag_bytes > 1048576 then health_score - 10
      else health_score
  | none => health_score

/-- The `health_score` value computed by the standby branch of
`calculate_health_score` just before the final clamp: start at 100,
subtract 30 when not in recovery; then, when the lag row is present,
subtract 30 when `lag_bytes > 10485760`, else 10 when
`lag_bytes > 1048576`, and additionally subtract 20 when
`lag_seconds > 30`, else 5 when `lag_seconds > 5`. -/
def standby_raw_score (in_recovery : Bool) (result : Option (ℤ × ℚ)) : ℤ :=
  let health_score : ℤ := 100
  let health_score := if !in_recovery then health_score - 30 else health_score
  match result with
  | some (lag_bytes, lag_seconds) =>
      let health_score :=
        if lag_bytes > 10485760 then health_score - 30
        else if lag_bytes > 1048576 then health_score - 10
        else health_score
      if lag_seconds > 30 then health_score - 20
      else if lag_seconds > 5 then health_score - 5
      else health_score
  | none => health_score

/-- `calculate_health_score(instance, conn)`: issues the branch's two
queries in order; a `psycopg2.Error` in either jumps to the `except`
handler before the final `set`, so nothing is published (`none`).
Otherwise publishes `max(0, min(100, health_score))`. -/
def calculate_health_score (inst : DbInstance) (q : HealthQueries) : Option ℤ :=
  match inst with
  | .primary =>
      match q.replicationCount with
      | .error _ => none
      | .ok replication_count =>
          match q.primaryLagRow with
          | .error _ => none
          | .ok result =>
              some (max 0 (min 100 (primary_raw_score replication_count result)))
  | .standby =>
      match q.inRecovery with
      | .error _ => none
      | .ok in_recovery =>
          match q.standbyLagRow with
          | .error _ => none
          | .ok result =>
              some (max 0 (min 100 (standby_raw_score in_recovery result)))

/-- The lag-bytes penalty applied by both health-score branches:
30 above 10 MiB, else 10 above 1 MiB, else 0. -/
def lag_bytes_penalty (lag_bytes : ℤ) : ℤ :=
  if lag_bytes > 10485760 then 30
  else if lag_bytes > 1048576 then 10
  else 0

/-- The lag-seconds penalty applied by the standby health-score branch:
20 above 30 s, else 5 above 5 s, else 0. -/
def lag_seconds_penalty (lag_seconds : ℚ) : ℤ :=
  if lag_seconds > 30 then 20
  else if lag_seconds > 5 then 5
  else 0

/-- `get_replication_lag_metrics(instance, conn)`: one lag query per
instance returning `(lag_bytes, lag_seconds)`; when the row is present
it sets the bytes, seconds and megabytes gauges in that order, with
`lag_mb = lag_bytes / (1024 * 1024)`.  A query error publishes
nothing. -/
def get_replication_lag_metrics (inst : DbInstance)
    (q : Except Unit (Option (ℤ × ℚ))) : List MetricWrite :=
  match q with
  | .error _ => []
  | .ok none => []
  | .ok (some (lag_bytes, lag_seconds)) =>
      let lag_mb : ℚ := (lag_bytes : ℚ) / (1024 * 1024)
      [⟨.pg_replication_lag_bytes, inst.label, none, (lag_bytes : ℚ)⟩,
       ⟨.pg_replication_lag_seconds, inst.label, none, lag_seconds⟩,
       ⟨.pg_replication_lag_mb, inst.label, none, lag_mb⟩]

/-- `get_replication_connection_metrics(instance, conn)`: primary only.
First query returns `(connection_count, sync_count)`; if its row is
present the total and the aggregate `client_addr='all'` sync flag are
set.  The second query lists `(client_addr, sync_state)` rows, each
setting a per-client sync gauge.  An error in the second query keeps
the writes already made by the first. -/
def get_replication_connection_metrics (inst : DbInstance)
    (q1 : Except Unit (Option (Nat × Nat)))
    (q2 : Except Unit (List (String × ℤ))) : List MetricWrite :=
  match inst with
  | .standby => []
  | .primary =>
      match q1 with
      | .error _ => []
      | .ok result =>
          let firstWrites : List MetricWrite :=
            match result with
            | some (total_connections, sync_connections) =>
                [⟨.pg_replication_connections, "primary", none, (total_connections : ℚ)⟩,
                 ⟨.pg_replication_sync_state, "primary", some "all",
                   if sync_connections > 0 then 1 else 0⟩]
            | none => []
          match q2 with
          | .error _ => firstWrites
          | .ok rows =>
              firstWrites ++ rows.map (fun row =>
                ⟨.pg_replication_sync_state, "primary", some row.1, (row.2 : ℚ)⟩)

/-- The WAL queries `get_wal_metrics` may issue. -/
structure WalQueries where
  senders : Except Unit Nat
  totalWalBytes : Except Unit ℤ
  receivers : Except Unit Nat
  deriving Repr

/-- `get_wal_metrics(instance, conn)`: on primary, count WAL senders and
set the gauge, then read total WAL bytes and set the (mislabelled) rate
gauge — an error in the second query keeps the first write.  On standby,
count WAL receivers. -/
def get_wal_metrics (inst : DbInstance) (q : WalQueries) : List MetricWrite :=
  match inst with
  | .primary =>
      match q.senders with
      | .error _ => []
      | .ok wal_senders =>
          let w1 : List MetricWrite :=
            [⟨.pg_wal_senders, inst.label, none, (wal_senders : ℚ)⟩]
          match q.totalWalBytes with
          | .error _ => w1
          | .ok total_wal_bytes =>
              w1 ++ [⟨.pg_wal_generation_rate, inst.label, none, (total_wal_bytes : ℚ)⟩]
  | .standby =>
      match q.receivers with
      | .error _ => []
      | .ok wal_receivers =>
          [⟨.pg_wal_receivers, inst.label, none, (wal_receivers : ℚ)⟩]

/-- `get_replication_slot_metrics(instance, conn)`: one query returning
`(total_slots, active_slots, inactive_slots)`; when the row is present
all three slot gauges are set together. -/
def get_replication_slot_metrics (inst : DbInstance)
    (q : Except Unit (Option (Nat × Nat × Nat))) : List MetricWrite :=
  match q with
  | .error _ => []
  | .ok none => []
  | .ok (some (total_slots, active_slots, inactive_slots)) =>
      [⟨.pg_replication_slots_total, inst.label, none, (total_slots : ℚ)⟩,
       ⟨.pg_replication_slots_active, inst.label, none, (active_slots : ℚ)⟩,
       ⟨.pg_replication_slots_inactive, inst.label, none, (inactive_slots : ℚ)⟩]

/-- The single registry write `calculate_health_score` performs when no
query failed; empty otherwise. -/
def calculate_health_score_writes (inst : DbInstance) (q : HealthQueries) :
    List MetricWrite :=
  match calculate_health_score inst q with
  | none => []
  | some s => [⟨.pg_replication_health_score, inst.label, none, (s : ℚ)⟩]

/-- `get_data_consistency_metrics()`: opens its own two connections
(the Booleans say whether `get_db_connection` returned a connection);
if either is absent it returns at once.  Otherwise it counts rows of
`test_data` on each side; an error in either count query jumps to the
`except` handler before the `set`.  Otherwise it publishes 1 when the
counts are equal, 0 when they differ, under `instance='cluster'`. -/
def get_data_consistency_metrics (primaryConn standbyConn : Bool)
    (pq sq : Except Unit Nat) : List MetricWrite :=
  if !primaryConn || !standbyConn then []
  else
    match pq with
    | .error _ => []
    | .ok primary_count =>
        match sq with
        | .error _ => []
        | .ok standby_count =>
            [⟨.pg_data_consistency_check, "cluster", none,
              if primary_count = standby_count then 1 else 0⟩]

/-- Everything one `collect_metrics()` pass reads from the outside
world: whether each `get_db_connection` call yields a connection, and
the result of every query any collector issues. -/
structure CycleInputs where
  primaryConn : Bool
  standbyConn : Bool
  primaryLag : Except Unit (Option (ℤ × ℚ))
  connQ1 : Except Unit (Option (Nat × Nat))
  connQ2 : Except Unit (List (String × ℤ))
  primaryWal : WalQueries
  primarySlots : Except Unit (Option (Nat × Nat × Nat))
  primaryHealth : HealthQueries
  standbyLag : Except Unit (Option (ℤ × ℚ))
  standbyWal : WalQueries
  standbyHealth : HealthQueries
  consPrimaryConn : Bool
  consStandbyConn : Bool
  consPrimaryCount : Except Unit Nat
  consStandbyCount : Except Unit Nat
  deriving Repr

/-- The health queries `calculate_health_score` issues for an instance
within a cycle. -/
def CycleInputs.healthQueriesOf (c : CycleInputs) : DbInstance → HealthQueries
  | .primary => c.primaryHealth
  | .standby => c.standbyHealth

/-- `collect_metrics()`: the ordered list of registry writes of one
pass.  If the primary connection is available, run the five primary
collectors; if the standby connection is available, run the three
standby collectors; then always run the consistency check on its own
two connections.  Each collector catches its own `psycopg2.Error`, so
a failure inside one never stops the later ones. -/
def collect_metrics (c : CycleInputs) : List MetricWrite :=
  (if c.primaryConn then
      get_replication_lag_metrics .primary c.primaryLag
      ++ get_replication_connection_metrics .primary c.connQ1 c.connQ2
      ++ get_wal_metrics .primary c.primaryWal
      ++ get_replication_slot_metrics .primary c.primarySlots
      ++ calculate_health_score_writes .primary c.primaryHealth
    else [])
  ++ (if c.standbyConn then
      get_replication_lag_metrics .standby c.standbyLag
      ++ get_wal_metrics .standby c.standbyWal
      ++ calculate_health_score_writes .standby c.standbyHealth
    else [])
  ++ get_data_consistency_metrics c.consPrimaryConn c.consStandbyConn
      c.consPrimaryCount c.consStandbyCount

/-- Identity of the connections a pass can open: the two
`collect_metrics` connections and the two the consistency check opens
for itself. -/
inductive ConnTag where
  | mainPrimary
  | mainStandby
  | consPrimary
  | consStandby
  deriving DecidableEq, Repr

/-- Connections opened by `get_data_consistency_metrics`: both
`get_db_connection` calls run unconditionally at its start. -/
def consistency_opened (primaryConn standbyConn : Bool) : List ConnTag :=
  (if primaryConn then [ConnTag.consPrimary] else [])
  ++ (if standbyConn then [ConnTag.consStandby] else [])

/-- Connections closed by `get_data_consistency_metrics`: the two
`close()` calls sit at the end of the `try` block, after both count
queries and the `set`; the early `return` when either connection is
absent, and the `except` path entered when a count query raises, run
no `close()` at all. -/
def consistency_closed (primaryConn standbyConn : Bool)
    (pq sq : Except Unit Nat) : List ConnTag :=
  if !primaryConn || !standbyConn then []
  else
    match pq with
    | .error _ => []
    | .ok _ =>
        match sq with
        | .error _ => []
        | .ok _ => [ConnTag.consPrimary, ConnTag.consStandby]

/-- All connections a `collect_metrics` pass opens. -/
def collect_metrics_opened (c : CycleInputs) : List ConnTag :=
  (if c.primaryConn then [ConnTag.mainPrimary] else [])
  ++ (if c.standbyConn then [ConnTag.mainStandby] else [])
  ++ consistency_opened c.consPrimaryConn c.consStandbyConn

/-- All connections a `collect_metrics` pass closes.  The two main
connections are closed right after their collector sequence — each
collector traps its own `psycopg2.Error`, so `close()` is always
reached; the consistency connections are closed only on the all-success
path of `get_data_consistency_metrics`. -/
def collect_metrics_closed (c : CycleInputs) : List ConnTag :=
  (if c.primaryConn then [ConnTag.mainPrimary] else [])
  ++ (if c.standbyConn then [ConnTag.mainStandby] else [])
  ++ consistency_closed c.consPrimaryConn c.consStandbyConn
      c.consPrimaryCount c.consStandbyCount

/-- Whether an `Except`-modelled query succeeded. -/
def exceptOk {α : Type} : Except Unit α → Bool
  | .ok _ => true
  | .error _ => false

/-- One of the queries `calculate_health_score` issues for this
instance raised a `psycopg2.Error`. -/
def healthQueryFailed : DbInstance → HealthQueries → Prop
  | .primary, q => q.replicationCount = .error () ∨ q.primaryLagRow = .error ()
  | .standby, q => q.inRecovery = .error () ∨ q.standbyLagRow = .error ()

/-- A concrete cycle in which the primary health scorer's first query
raises while the consistency check finds matching counts. -/
def cycleHealthFail : CycleInputs :=
  { primaryConn := true
    standbyConn := true
    primaryLag := .ok none
    connQ1 := .ok none
    connQ2 := .ok []
    primaryWal := ⟨.ok 0, .ok 0, .ok 0⟩
    primarySlots := .ok none
    primaryHealth := ⟨.error (), .ok none, .ok true, .ok none⟩
    standbyLag := .ok none
    standbyWal := ⟨.ok 0, .ok 0, .ok 0⟩
    standbyHealth := ⟨.ok 0, .ok none, .ok true, .ok none⟩
    consPrimaryConn := true
    consStandbyConn := true
    consPrimaryCount := .ok 5
    consStandbyCount := .ok 5 }

/-- A concrete cycle in which the consistency check's standby
connection attempt fails while its primary connection succeeds. -/
def cycleConsLeak : CycleInputs :=
  { primaryConn := false
    standbyConn := false
    primaryLag := .ok none
    connQ1 := .ok none
    connQ2 := .ok []
    primaryWal := ⟨.ok 0, .ok 0, .ok 0⟩
    primarySlots := .ok none
    primaryHealth := ⟨.ok 0, .ok none, .ok true, .ok none⟩
    standbyLag := .ok none
    standbyWal := ⟨.ok 0, .ok 0, .ok 0⟩
    standbyHealth := ⟨.ok 0, .ok none, .ok true, .ok none⟩
    consPrimaryConn := true
    consStandbyConn := false
    consPrimaryCount := .ok 5
    consStandbyCount := .ok 5 }

/-- A concrete cycle in which the consistency check's primary
connection attempt fails while its standby connection succeeds. -/
def cycleConsLeakStandby : CycleInputs :=
  { primaryConn := false
    standbyConn := false
    primaryLag := .ok none
    connQ1 := .ok none
    connQ2 := .ok []
    primaryWal := ⟨.ok 0, .ok 0, .ok 0⟩
    primarySlots := .ok none
    primaryHealth := ⟨.ok 0, .ok none, .ok true, .ok none⟩
    standbyLag := .ok none
    standbyWal := ⟨.ok 0, .ok 0, .ok 0⟩
    standbyHealth := ⟨.ok 0, .ok none, .ok true, .ok none⟩
    consPrimaryConn := false
    consStandbyConn := true
    consPrimaryCount := .ok 5
    consStandbyCount := .ok 5 }

/-- A concrete cycle in which both consistency connections succeed but
the primary row-count query raises. -/
def cycleConsQueryFail : CycleInputs :=
  { primaryConn := false
    standbyConn := false
    primaryLag := .ok none
    connQ1 := .ok none
    connQ2 := .ok []
    primaryWal := ⟨.ok 0, .ok 0, .ok 0⟩
    primarySlots := .ok none
    primaryHealth := ⟨.ok 0, .ok none, .ok true, .ok none⟩
    standbyLag := .ok none
    standbyWal := ⟨.ok 0, .ok 0, .ok 0⟩
    standbyHealth := ⟨.ok 0, .ok none, .ok true, .ok none⟩
    consPrimaryConn := true
    consStandbyConn := true
    consPrimaryCount := .error ()
    consStandbyCount := .ok 5 }

/-- A concrete cycle in which every connection and query succeeds. -/
def cycleAllOk : CycleInputs :=
  { primaryConn := true
    standbyConn := true
    primaryLag := .ok (some (0, 0))
    connQ1 := .ok (some (1, 1))
    connQ2 := .ok [("10.0.0.2", 1)]
    primaryWal := ⟨.ok 1, .ok 1000, .ok 0⟩
    primarySlots := .ok (some (1, 1, 0))
    primaryHealth := ⟨.ok 1, .ok (some 0), .ok true, .ok none⟩
    standbyLag := .ok (some (0, 0))
    standbyWal := ⟨.ok 0, .ok 0, .ok 1⟩
    standbyHealth := ⟨.ok 0, .ok none, .ok true, .ok (some (0, 0))⟩
    consPrimaryConn := true
    consStandbyConn := true
    consPrimaryCount := .ok 7
    consStandbyCount := .ok 7 }

/- ### Helper lemmas about the health scorer -/

theorem primary_raw_score_some_eq (n : Nat) (b : ℤ) :
    primary_raw_score n (some b) = primary_raw_score n none - lag_bytes_penalty b := by
  simp only [primary_raw_score, lag_bytes_penalty]
  split_ifs <;> omega

theorem standby_raw_score_some_eq (r : Bool) (b : ℤ) (s : ℚ) :
    standby_raw_score r (some (b, s)) =
      standby_raw_score r none - lag_bytes_penalty b - lag_seconds_penalty s := by
  simp only [standby_raw_score, lag_bytes_penalty, lag_seconds_penalty]
  cases r <;> split_ifs <;> omega

theorem primary_raw_score_bounds (n : Nat) (row : Option ℤ) :
    20 ≤ primary_raw_score n row ∧ primary_raw_score n row ≤ 100 := by
  cases row <;> simp only [primary_raw_score] <;> split_ifs <;> omega

theorem standby_raw_score_bounds (r : Bool) (row : Option (ℤ × ℚ)) :
    20 ≤ standby_raw_score r row ∧ standby_raw_score r row ≤ 100 := by
  rcases row with _ | ⟨b, s⟩ <;> cases r <;>
    simp only [standby_raw_score] <;> split_ifs <;> omega

/-- Inversion: a published score is the clamp of the corresponding raw
score, and both branch queries succeeded. -/
theorem calculate_health_score_some_iff (inst : DbInstance) (q : HealthQueries) (s : ℤ) :
    calculate_health_score inst q = some s ↔
      (inst = .primary ∧ ∃ n row, q.replicationCount = .ok n ∧ q.primaryLagRow = .ok row ∧
        s = max 0 (min 100 (primary_raw_score n row))) ∨
      (inst = .standby ∧ ∃ r row, q.inRecovery = .ok r ∧ q.standbyLagRow = .ok row ∧
        s = max 0 (min 100 (standby_raw_score r row))) := by
  cases inst <;>
    rcases hrc : q.replicationCount with _ | n <;>
    rcases hpl : q.primaryLagRow with _ | prow <;>
    rcases hir : q.inRecovery with _ | r <;>
    rcases hsl : q.standbyLagRow with _ | srow <;>
    simp [calculate_health_score, hrc, hpl, hir, hsl, eq_comm]

theorem primary_raw_score_zero_conn_le (row : Option ℤ) :
    primary_raw_score 0 row ≤ 50 := by
  cases row <;> simp only [primary_raw_score] <;> split_ifs <;> omega

theorem primary_raw_score_ne_80 (n : Nat) (row : Option ℤ) :
    primary_raw_score n row ≠ 80 := by
  cases row <;> simp only [primary_raw_score] <;> split_ifs <;> omega

/- ### Helper lemmas about the collectors -/

theorem lag_metrics_gauge {inst : DbInstance} {q : Except Unit (Option (ℤ × ℚ))}
    {w : MetricWrite} (hw : w ∈ get_replication_lag_metrics inst q) :
    w.gauge ≠ GaugeName.pg_replication_health_score := by
  rcases q with _ | (_ | ⟨b, s⟩) <;> simp [get_replication_lag_metrics] at hw <;>
    rcases hw with rfl | rfl | rfl <;> simp

theorem conn_metrics_gauge {inst : DbInstance} {q1 : Except Unit (Option (Nat × Nat))}
    {q2 : Except Unit (List (String × ℤ))} {w : MetricWrite}
    (hw : w ∈ get_replication_connection_metrics inst q1 q2) :
    w.gauge ≠ GaugeName.pg_replication_health_score := by
  cases inst
  · rcases q1 with _ | (_ | ⟨t, s⟩) <;> rcases q2 with _ | rows <;>
      simp [get_replication_connection_metrics] at hw <;> aesop
  · simp [get_replication_connection_metrics] at hw

theorem wal_metrics_gauge {inst : DbInstance} {q : WalQueries} {w : MetricWrite}
    (hw : w ∈ get_wal_metrics inst q) :
    w.gauge ≠ GaugeName.pg_replication_health_score := by
  cases inst
  · rcases hs : q.senders with _ | ns <;> rcases ht : q.totalWalBytes with _ | nb <;>
      simp [get_wal_metrics, hs, ht] at hw <;> aesop
  · rcases hr : q.receivers with _ | nr <;> simp [get_wal_metrics, hr] at hw
    aesop

theorem slot_metrics_gauge {inst : DbInstance}
    {q : Except Unit (Option (Nat × Nat × Nat))} {w : MetricWrite}
    (hw : w ∈ get_replication_slot_metrics inst q) :
    w.gauge ≠ GaugeName.pg_replication_health_score := by
  rcases q with _ | (_ | ⟨t, a, i⟩) <;> simp [get_replication_slot_metrics] at hw <;>
    rcases hw with rfl | rfl | rfl <;> simp

theorem consistency_metrics_gauge {pc sc : Bool} {pq sq : Except Unit Nat}
    {w : MetricWrite} (hw : w ∈ get_data_consistency_metrics pc sc pq sq) :
    w.gauge ≠ GaugeName.pg_replication_health_score := by
  cases pc <;> cases sc <;> rcases pq with _ | p <;> rcases sq with _ | s <;>
    simp [get_data_consistency_metrics] at hw <;> aesop

theorem health_writes_shape {inst : DbInstance} {q : HealthQueries} {w : MetricWrite}
    (hw : w ∈ calculate_health_score_writes inst q) :
    w.gauge = GaugeName.pg_replication_health_score ∧ w.instLabel = inst.label := by
  rcases h : calculate_health_score inst q with _ | s <;>
    simp [calculate_health_score_writes, h] at hw
  rcases hw with rfl
  simp

theorem health_writes_of_failed {inst : DbInstance} {q : HealthQueries}
    (hfail : healthQueryFailed inst q) :
    calculate_health_score inst q = none := by
  cases inst
  · rcases hfail with h | h
    · simp [calculate_health_score, h]
    · rcases hrc : q.replicationCount with _ | n <;>
        simp [calculate_health_score, hrc, h]
  · rcases hfail with h | h
    · simp [calculate_health_score, h]
    · rcases hir : q.inRecovery with _ | r <;>
        simp [calculate_health_score, hir, h]

/-- Any write to the health-score gauge in a cycle comes from one of
the two `calculate_health_score` calls. -/
theorem collect_metrics_health_writes {c : CycleInputs} {w : MetricWrite}
    (hw : w ∈ collect_metrics c)
    (hg : w.gauge = GaugeName.pg_replication_health_score) :
    w ∈ calculate_health_score_writes .primary c.primaryHealth ∨
    w ∈ calculate_health_score_writes .standby c.standbyHealth := by
  simp only [collect_metrics, List.mem_append] at hw
  rcases hw with (hw | hw) | hw
  · split_ifs at hw with hp
    · simp only [List.mem_append] at hw
      rcases hw with (((hw | hw) | hw) | hw) | hw
      · exact absurd hg (lag_metrics_gauge hw)
      · exact absurd hg (conn_metrics_gauge hw)
      · exact absurd hg (wal_metrics_gauge hw)
      · exact absurd hg (slot_metrics_gauge hw)
      · exact Or.inl hw
    · simp at hw
  · split_ifs at hw with hs
    · simp only [List.mem_append] at hw
      rcases hw with (hw | hw) | hw
      · exact absurd hg (lag_metrics_gauge hw)
      · exact absurd hg (wal_metrics_gauge hw)
      · exact Or.inr hw
    · simp at hw
  · exact absurd hg (consistency_metrics_gauge hw)

/- ### Claim theorems -/

/-- C1.  Standby endpoint: if `pg_is_in_recovery` returns false and the
lag row reports `lag_bytes > 10485760` and `lag_seconds > 30`, then
`calculate_health_score` publishes exactly `100 - 30 - 30 - 20 = 20`:
the recovery, byte-lag and second-lag penalties all apply together. -/
theorem standby_three_penalties_score_20 (q : HealthQueries) (b : ℤ) (s : ℚ)
    (hrec : q.inRecovery = .ok false)
    (hrow : q.standbyLagRow = .ok (some (b, s)))
    (hb : b > 10485760) (hs : s > 30) :
    calculate_health_score .standby q = some 20 := by
  simp only [calculate_health_score, hrec, hrow]
  simp only [standby_raw_score, Bool.not_false, if_true, hb, if_pos, hs]
  norm_num

/-- Witness for C1 at a concrete input. -/
theorem standby_three_penalties_score_20_witness :
    calculate_health_score .standby
      ⟨.ok 0, .ok none, .ok false, .ok (some (10485761, 31))⟩ = some 20 :=
  standby_three_penalties_score_20 _ 10485761 31 rfl rfl (by norm_num) (by norm_num)

/-- C2.  Primary endpoint: with zero replication connections, any score
published by `calculate_health_score` is at most 50, whatever the lag
query returns: the −50 penalty is applied before the lag penalty and
the clamp. -/
theorem primary_zero_connections_score_le_50 (q : HealthQueries) (s : ℤ)
    (h0 : q.replicationCount = .ok 0)
    (hpub : calculate_health_score .primary q = some s) :
    s ≤ 50 := by
  rcases (calculate_health_score_some_iff .primary q s).1 hpub with
    ⟨-, n, row, hn, -, hval⟩ | ⟨h, -⟩
  · rw [h0] at hn
    obtain rfl : n = 0 := by injection hn with h; exact h.symm
    have := primary_raw_score_zero_conn_le row
    omega
  · cases h

/-- Witness for C2: zero connections and 20 MB of lag give score 20. -/
theorem primary_zero_connections_score_le_50_witness :
    calculate_health_score .primary
      ⟨.ok 0, .ok (some 20971520), .ok true, .ok none⟩ = some 20 ∧ (20 : ℤ) ≤ 50 :=
  ⟨by decide, primary_zero_connections_score_le_50
    ⟨.ok 0, .ok (some 20971520), .ok true, .ok none⟩ 20 rfl (by decide)⟩

/-- C3.  Byte-lag penalty exclusivity: bytes in `(1 MiB, 10 MiB]` incur
exactly the −10 penalty, the penalty is always one of 0, 10, 30 (never
40, so −10 and −30 never stack), and both the primary and the standby
branch of `calculate_health_score` subtract exactly this one penalty
from their no-lag baseline. -/
theorem lag_bytes_penalty_exclusive :
    (∀ b : ℤ, 1048576 < b → b ≤ 10485760 → lag_bytes_penalty b = 10) ∧
    (∀ b : ℤ, lag_bytes_penalty b = 0 ∨ lag_bytes_penalty b = 10 ∨
      lag_bytes_penalty b = 30) ∧
    (∀ (n : Nat) (b : ℤ), primary_raw_score n (some b) =
      primary_raw_score n none - lag_bytes_penalty b) ∧
    (∀ (r : Bool) (b : ℤ) (s : ℚ), standby_raw_score r (some (b, s)) =
      standby_raw_score r none - lag_bytes_penalty b - lag_seconds_penalty s) := by
  refine ⟨fun b h1 h2 => ?_, fun b => ?_, primary_raw_score_some_eq,
    standby_raw_score_some_eq⟩
  · simp only [lag_bytes_penalty]
    split_ifs <;> omega
  · simp only [lag_bytes_penalty]
    split_ifs <;> omega

/-- Witness for C3 at 2 MiB of lag. -/
theorem lag_bytes_penalty_exclusive_witness :
    1048576 < (2097152 : ℤ) ∧ (2097152 : ℤ) ≤ 10485760 ∧
      lag_bytes_penalty 2097152 = 10 :=
  ⟨by norm_num, by norm_num,
    lag_bytes_penalty_exclusive.1 2097152 (by norm_num) (by norm_num)⟩

/-- C4.  For both endpoints and every combination of query results, any
score `calculate_health_score` publishes lies in `[0, 100]`. -/
theorem health_score_always_clamped (inst : DbInstance) (q : HealthQueries)
    (s : ℤ) (h : calculate_health_score inst q = some s) :
    0 ≤ s ∧ s ≤ 100 := by
  rcases (calculate_health_score_some_iff inst q s).1 h with
    ⟨-, n, row, -, -, hval⟩ | ⟨-, r, row, -, -, hval⟩ <;> omega

/-- Witness for C4 at a concrete input. -/
theorem health_score_always_clamped_witness :
    calculate_health_score .primary
      ⟨.ok 1, .ok (some 0), .ok true, .ok none⟩ = some 100 ∧
      0 ≤ (100 : ℤ) ∧ (100 : ℤ) ≤ 100 :=
  ⟨by decide, health_score_always_clamped .primary
    ⟨.ok 1, .ok (some 0), .ok true, .ok none⟩ 100 (by decide)⟩

/-- C9.  The primary branch that subtracts 20 when
`replication_count < 1` is dead: every count is either 0 (taken by the
−50 branch) or at least 1, the no-lag raw score is only ever 50 or 100,
and no published primary score ever equals `100 - 20 = 80`. -/
theorem primary_minus20_branch_unreachable :
    (∀ n : Nat, n = 0 ∨ ¬ n < 1) ∧
    (∀ n : Nat, primary_raw_score n none = if n = 0 then 50 else 100) ∧
    (∀ (q : HealthQueries) (s : ℤ),
      calculate_health_score .primary q = some s → s ≠ 80) := by
  refine ⟨fun n => by omega, fun n => ?_, fun q s h => ?_⟩
  · simp only [primary_raw_score]
    split_ifs <;> omega
  · rcases (calculate_health_score_some_iff .primary q s).1 h with
      ⟨-, n, row, -, -, hval⟩ | ⟨hc, -⟩
    · have h80 := primary_raw_score_ne_80 n row
      have hb := primary_raw_score_bounds n row
      omega
    · cases hc

/-- Witness for C9: a healthy primary publishes 100, which is not 80. -/
theorem primary_minus20_branch_unreachable_witness :
    calculate_health_score .primary
      ⟨.ok 1, .ok (some 0), .ok true, .ok none⟩ = some 100 ∧ (100 : ℤ) ≠ 80 :=
  ⟨by decide,
    primary_minus20_branch_unreachable.2.2
      ⟨.ok 1, .ok (some 0), .ok true, .ok none⟩ 100 (by decide)⟩

/-- C10.  The raw score before clamping is at least 20 on both
endpoints (the reachable penalties total at most 80), so the lower
clamp to 0 never changes the value and every published score is at
least 20. -/
theorem pre_clamp_score_at_least_20 :
    (∀ (n : Nat) (row : Option ℤ), 20 ≤ primary_raw_score n row) ∧
    (∀ (r : Bool) (row : Option (ℤ × ℚ)), 20 ≤ standby_raw_score r row) ∧
    (∀ (n : Nat) (row : Option ℤ),
      max 0 (min 100 (primary_raw_score n row)) = min 100 (primary_raw_score n row)) ∧
    (∀ (r : Bool) (row : Option (ℤ × ℚ)),
      max 0 (min 100 (standby_raw_score r row)) = min 100 (standby_raw_score r row)) ∧
    (∀ (inst : DbInstance) (q : HealthQueries) (s : ℤ),
      calculate_health_score inst q = some s → 20 ≤ s) := by
  refine ⟨fun n row => (primary_raw_score_bounds n row).1,
    fun r row => (standby_raw_score_bounds r row).1,
    fun n row => ?_, fun r row => ?_, fun inst q s h => ?_⟩
  · have := primary_raw_score_bounds n row
    omega
  · have := standby_raw_score_bounds r row
    omega
  · rcases (calculate_health_score_some_iff inst q s).1 h with
      ⟨-, n, row, -, -, hval⟩ | ⟨-, r, row, -, -, hval⟩
    · have := primary_raw_score_bounds n row
      omega
    · have := standby_raw_score_bounds r row
      omega

/-- Witness for C10: the worst reachable standby input publishes
exactly 20, which is at least 20. -/
theorem pre_clamp_score_at_least_20_witness :
    calculate_health_score .standby
      ⟨.ok 0, .ok none, .ok false, .ok (some (10485761, 31))⟩ = some 20 ∧
      (20 : ℤ) ≤ 20 :=
  ⟨by decide, pre_clamp_score_at_least_20.2.2.2.2 .standby
    ⟨.ok 0, .ok none, .ok false, .ok (some (10485761, 31))⟩ 20 (by decide)⟩

/-- C5.  The consistency collector publishes exactly 1 under
`instance="cluster"` when the two row counts are equal, exactly 0 when
they differ in either direction, and publishes nothing when either
connection attempt fails. -/
theorem consistency_check_values :
    (∀ p : Nat, get_data_consistency_metrics true true (.ok p) (.ok p) =
      [⟨.pg_data_consistency_check, "cluster", none, 1⟩]) ∧
    (∀ p s : Nat, p ≠ s → get_data_consistency_metrics true true (.ok p) (.ok s) =
      [⟨.pg_data_consistency_check, "cluster", none, 0⟩]) ∧
    (∀ (cp cs : Bool) (pq sq : Except Unit Nat), cp = false ∨ cs = false →
      get_data_consistency_metrics cp cs pq sq = []) := by
  refine ⟨fun p => by simp [get_data_consistency_metrics],
    fun p s h => by simp [get_data_consistency_metrics, h],
    fun cp cs pq sq h => ?_⟩
  rcases h with rfl | rfl <;> simp [get_data_consistency_metrics]

/-- Witness for C5: equal counts give 1, unequal give 0, a missing
standby connection publishes nothing. -/
theorem consistency_check_values_witness :
    get_data_consistency_metrics true true (.ok 3) (.ok 3) =
      [⟨.pg_data_consistency_check, "cluster", none, 1⟩] ∧
    (2 : Nat) ≠ 3 ∧
    get_data_consistency_metrics true true (.ok 2) (.ok 3) =
      [⟨.pg_data_consistency_check, "cluster", none, 0⟩] ∧
    get_data_consistency_metrics true false (.ok 2) (.ok 3) = [] :=
  ⟨consistency_check_values.1 3, by decide,
   consistency_check_values.2.1 2 3 (by decide),
   consistency_check_values.2.2 true false (.ok 2) (.ok 3) (Or.inr rfl)⟩

/-- C6.  If a query issued by `calculate_health_score` fails, no write
to `pg_replication_health_score` for that endpoint occurs anywhere in
the cycle, and the failure is contained: the consistency collector's
writes of the same pass all still happen. -/
theorem health_score_failure_isolated (c : CycleInputs) (inst : DbInstance)
    (hfail : healthQueryFailed inst (c.healthQueriesOf inst)) :
    calculate_health_score inst (c.healthQueriesOf inst) = none ∧
    (∀ w ∈ collect_metrics c,
      w.gauge = GaugeName.pg_replication_health_score → w.instLabel ≠ inst.label) ∧
    (∀ w ∈ get_data_consistency_metrics c.consPrimaryConn c.consStandbyConn
        c.consPrimaryCount c.consStandbyCount, w ∈ collect_metrics c) := by
  have hnone := health_writes_of_failed hfail
  refine ⟨hnone, ?_, ?_⟩
  · intro w hw hg heq
    rcases collect_metrics_health_writes hw hg with h | h <;> cases inst
    · rw [show CycleInputs.healthQueriesOf c .primary = c.primaryHealth from rfl] at hnone
      simp [calculate_health_score_writes, hnone] at h
    · obtain ⟨-, hlbl⟩ := health_writes_shape h
      rw [hlbl] at heq
      exact absurd heq (by decide)
    · obtain ⟨-, hlbl⟩ := health_writes_shape h
      rw [hlbl] at heq
      exact absurd heq (by decide)
    · rw [show CycleInputs.healthQueriesOf c .standby = c.standbyHealth from rfl] at hnone
      simp [calculate_health_score_writes, hnone] at h
  · intro w hw
    simp only [collect_metrics, List.mem_append]
    exact Or.inr hw

/-- Witness for C6: with the primary count query failing, no primary
health score is published but the consistency result still is. -/
theorem health_score_failure_isolated_witness :
    calculate_health_score .primary (cycleHealthFail.healthQueriesOf .primary) = none ∧
    (⟨GaugeName.pg_data_consistency_check, "cluster", none, 1⟩ : MetricWrite) ∈
      collect_metrics cycleHealthFail :=
  ⟨(health_score_failure_isolated cycleHealthFail .primary (Or.inl rfl)).1,
   (health_score_failure_isolated cycleHealthFail .primary (Or.inl rfl)).2.2 _
     (by decide)⟩

/-- C7 counterexample: when the consistency check's standby connection
attempt fails but its primary one succeeds, the pass opens the primary
consistency connection and closes nothing — the early `return` skips
every `close()`. -/
theorem consistency_connection_leak :
    collect_metrics_opened cycleConsLeak = [ConnTag.consPrimary] ∧
    collect_metrics_closed cycleConsLeak = [] := by decide

/-- C7 as amended.  The two `collect_metrics` connections are closed
whenever they were opened, and only opened connections are ever closed;
but the consistency collector closes its two dedicated connections only
when both connection attempts and both row-count queries succeed (an
exact characterization), and on every other path it closes nothing: if
only one connection attempt succeeds — in either direction — the early
`return` skips every `close()` and the open connection is leaked, and
if either row-count query raises, both open connections are leaked. -/
theorem connection_close_discipline (c : CycleInputs) :
    (ConnTag.mainPrimary ∈ collect_metrics_opened c ↔
      ConnTag.mainPrimary ∈ collect_metrics_closed c) ∧
    (ConnTag.mainStandby ∈ collect_metrics_opened c ↔
      ConnTag.mainStandby ∈ collect_metrics_closed c) ∧
    (∀ t, t ∈ collect_metrics_closed c → t ∈ collect_metrics_opened c) ∧
    (consistency_closed c.consPrimaryConn c.consStandbyConn
        c.consPrimaryCount c.consStandbyCount =
      if c.consPrimaryConn && c.consStandbyConn &&
          exceptOk c.consPrimaryCount && exceptOk c.consStandbyCount then
        [ConnTag.consPrimary, ConnTag.consStandby]
      else []) ∧
    (c.consPrimaryConn = true → c.consStandbyConn = false →
      ConnTag.consPrimary ∈ collect_metrics_opened c ∧
      consistency_closed c.consPrimaryConn c.consStandbyConn
        c.consPrimaryCount c.consStandbyCount = []) ∧
    (c.consPrimaryConn = false → c.consStandbyConn = true →
      ConnTag.consStandby ∈ collect_metrics_opened c ∧
      consistency_closed c.consPrimaryConn c.consStandbyConn
        c.consPrimaryCount c.consStandbyCount = []) ∧
    (exceptOk c.consPrimaryCount = false →
      consistency_closed c.consPrimaryConn c.consStandbyConn
        c.consPrimaryCount c.consStandbyCount = []) ∧
    (exceptOk c.consStandbyCount = false →
      consistency_closed c.consPrimaryConn c.consStandbyConn
        c.consPrimaryCount c.consStandbyCount = []) ∧
    (c.consPrimaryConn = true → c.consStandbyConn = true →
      exceptOk c.consPrimaryCount = true → exceptOk c.consStandbyCount = true →
      ConnTag.consPrimary ∈ collect_metrics_closed c ∧
      ConnTag.consStandby ∈ collect_metrics_closed c) := by
  obtain ⟨pc, sc, pl, cq1, cq2, pw, ps, ph, sl, sw, sh, ccp, ccs, cpc, csc⟩ := c
  cases pc <;> cases sc <;> cases ccp <;> cases ccs <;>
    rcases cpc with u | p <;> rcases csc with u' | s <;>
    simp [collect_metrics_opened, collect_metrics_closed, consistency_opened,
      consistency_closed, exceptOk]

/-- Witness for C7's amended statement: on the all-success cycle both
consistency connections are closed; with only the primary attempt
succeeding the open primary connection is never closed; with only the
standby attempt succeeding the open standby connection is never
closed; with the primary row-count query raising nothing is closed. -/
theorem connection_close_discipline_witness :
    (ConnTag.consPrimary ∈ collect_metrics_closed cycleAllOk ∧
      ConnTag.consStandby ∈ collect_metrics_closed cycleAllOk) ∧
    (ConnTag.consPrimary ∈ collect_metrics_opened cycleConsLeak ∧
      consistency_closed cycleConsLeak.consPrimaryConn cycleConsLeak.consStandbyConn
        cycleConsLeak.consPrimaryCount cycleConsLeak.consStandbyCount = []) ∧
    (ConnTag.consStandby ∈ collect_metrics_opened cycleConsLeakStandby ∧
      consistency_closed cycleConsLeakStandby.consPrimaryConn
        cycleConsLeakStandby.consStandbyConn
        cycleConsLeakStandby.consPrimaryCount
        cycleConsLeakStandby.consStandbyCount = []) ∧
    consistency_closed cycleConsQueryFail.consPrimaryConn
      cycleConsQueryFail.consStandbyConn
      cycleConsQueryFail.consPrimaryCount
      cycleConsQueryFail.consStandbyCount = [] :=
  ⟨(connection_close_discipline cycleAllOk).2.2.2.2.2.2.2.2 rfl rfl rfl rfl,
   (connection_close_discipline cycleConsLeak).2.2.2.2.1 rfl rfl,
   (connection_close_discipline cycleConsLeakStandby).2.2.2.2.2.1 rfl rfl,
   (connection_close_discipline cycleConsQueryFail).2.2.2.2.2.2.1 rfl⟩

/-- C8.  For every non-negative lag-bytes value, the lag collector
publishes, in one call, the raw bytes, the seconds, and
`lag_bytes / 1048576` exactly as the megabytes value. -/
theorem lag_mb_exact_division (inst : DbInstance) (b : ℤ) (s : ℚ) (hb : 0 ≤ b) :
    get_replication_lag_metrics inst (.ok (some (b, s))) =
      [⟨.pg_replication_lag_bytes, inst.label, none, (b : ℚ)⟩,
       ⟨.pg_replication_lag_seconds, inst.label, none, s⟩,
       ⟨.pg_replication_lag_mb, inst.label, none, (b : ℚ) / 1048576⟩] := by
  simp only [get_replication_lag_metrics]
  norm_num

/-- Witness for C8: 2 MiB of lag publishes exactly 2 MB. -/
theorem lag_mb_exact_division_witness :
    0 ≤ (2097152 : ℤ) ∧
    get_replication_lag_metrics .primary (.ok (some (2097152, 2))) =
      [⟨.pg_replication_lag_bytes, "primary", none, 2097152⟩,
       ⟨.pg_replication_lag_seconds, "primary", none, 2⟩,
       ⟨.pg_replication_lag_mb, "primary", none, (2097152 : ℚ) / 1048576⟩] :=
  ⟨by norm_num, lag_mb_exact_division .primary 2097152 2 (by norm_num)⟩

end PgExporter
